import Mathlib

/-!
Shallow embedding of the secret-link client core:
`src/lib/secretnotes.ts` (key normalizer, transport adapter, note resolver,
image subsystem) and the autosave logic of the index screen.

Strings are modelled as Lean strings (lists of code points; the JS engine
works on UTF-16 units, which only differs on astral characters and does not
affect any claim here).  Machine-level JS values that can be `null`/falsy are
modelled with `Option` or with explicit truthiness flags where the source
branches on truthiness.
-/

namespace SecretNotes

/-- Whitespace set of JS `String.prototype.trim` (ECMA-262 WhiteSpace plus
LineTerminator code points). -/
def isJsWhitespace (c : Char) : Bool :=
  let n := c.toNat
  (9 ≤ n && n ≤ 13) || n == 32 || n == 160 || n == 5760 ||
  (8192 ≤ n && n ≤ 8202) || n == 8232 || n == 8233 || n == 8239 ||
  n == 8287 || n == 12288 || n == 65279

/-- Trimming a character list on both ends, exactly JS `trim`: drop leading
whitespace, then drop trailing whitespace. -/
def jsTrimList (l : List Char) : List Char :=
  ((l.dropWhile isJsWhitespace).reverse.dropWhile isJsWhitespace).reverse

/-- Embedding of `normalizePhrase` (src/lib/secretnotes.ts lines 3-5):
`(p ?? '').trim()`.  Lean strings cannot be `null`, so the `?? ''` guard is
inert here. -/
def normalizePhrase (p : String) : String :=
  String.mk (jsTrimList p.data)

theorem dropWhile_dropWhile_self (p : Char → Bool) (l : List Char) :
    (l.dropWhile p).dropWhile p = l.dropWhile p := by
  induction l with
  | nil => rfl
  | cons a t ih =>
    by_cases h : p a <;> simp [List.dropWhile_cons, h, ih]

theorem exists_append_dropWhile (p : Char → Bool) (l : List Char) :
    ∃ pre, l = pre ++ l.dropWhile p := by
  induction l with
  | nil => exact ⟨[], rfl⟩
  | cons a t ih =>
    by_cases h : p a
    · obtain ⟨pre, hpre⟩ := ih
      exact ⟨a :: pre, by simp [List.dropWhile_cons, h]; exact hpre⟩
    · exact ⟨[], by simp [List.dropWhile_cons, h]⟩

theorem length_dropWhile_le_len (p : Char → Bool) (l : List Char) :
    (l.dropWhile p).length ≤ l.length := by
  induction l with
  | nil => simp [List.dropWhile]
  | cons a t ih =>
    by_cases h : p a <;> simp [List.dropWhile_cons, h]
    omega

theorem dropWhile_eq_self_of_append (p : Char → Bool) (y t : List Char)
    (h : (y ++ t).dropWhile p = y ++ t) : y.dropWhile p = y := by
  cases y with
  | nil => rfl
  | cons a ys =>
    by_cases ha : p a
    · exfalso
      have hlen : ((a :: ys ++ t).dropWhile p).length ≤ (ys ++ t).length := by
        simp only [List.cons_append, List.dropWhile_cons, ha, if_true]
        exact length_dropWhile_le_len p (ys ++ t)
      rw [h] at hlen
      simp at hlen
    · simp [List.dropWhile_cons, ha]

theorem jsTrimList_idem (l : List Char) :
    jsTrimList (jsTrimList l) = jsTrimList l := by
  set ws := isJsWhitespace
  set A := l.dropWhile ws with hA
  have hAdrop : A.dropWhile ws = A := by
    rw [hA]; exact dropWhile_dropWhile_self ws l
  obtain ⟨pre, hpre⟩ := exists_append_dropWhile ws A.reverse
  set D := A.reverse.dropWhile ws with hD
  -- D.reverse is a prefix of A
  have hAB : A = D.reverse ++ pre.reverse := by
    have h2 := congrArg List.reverse hpre
    rw [List.reverse_reverse, List.reverse_append] at h2
    exact h2
  have hBdrop : D.reverse.dropWhile ws = D.reverse := by
    apply dropWhile_eq_self_of_append ws D.reverse pre.reverse
    rw [← hAB, hAdrop]
  have hBrev : D.reverse.reverse.dropWhile ws = D.reverse.reverse := by
    rw [List.reverse_reverse, hD]
    exact dropWhile_dropWhile_self ws A.reverse
  show ((D.reverse.dropWhile ws).reverse.dropWhile ws).reverse = D.reverse
  rw [hBdrop, hBrev, List.reverse_reverse]

/-- Normalization is idempotent: trimming an already-trimmed phrase changes
nothing. -/
theorem normalizePhrase_idem (p : String) :
    normalizePhrase (normalizePhrase p) = normalizePhrase p := by
  unfold normalizePhrase
  rw [show (String.mk (jsTrimList p.data)).data = jsTrimList p.data from rfl,
    jsTrimList_idem]

/-- JSON values as seen by the client after `JSON.parse`.  Arrays are elided
(the code only ever reads the `error`/`message` fields, and a non-object parse
result simply yields no field); numbers are modelled as integers. -/
inductive Json where
  | jnull : Json
  | jbool : Bool → Json
  | jnum : Int → Json
  | jstr : String → Json
  | jobj : List (String × Json) → Json

/-- Field access `data?.k`: objects look the key up, every other value
(including `null`) yields `undefined`, i.e. `none`. -/
def getField (j : Json) (k : String) : Option Json :=
  match j with
  | .jobj fs => fs.lookup k
  | _ => none

/-- JS truthiness of a parsed JSON value. -/
def jsTruthy (j : Json) : Bool :=
  match j with
  | .jnull => false
  | .jbool b => b
  | .jnum n => n != 0
  | .jstr s => s ≠ ""
  | .jobj _ => true

/-- JS string interpolation of a parsed JSON value, as in the template
literal that builds the failure message. -/
def jsDisplay (j : Json) : String :=
  match j with
  | .jnull => "null"
  | .jbool true => "true"
  | .jbool false => "false"
  | .jnum n => toString n
  | .jstr s => s
  | .jobj _ => "[object Object]"

/-- Truthy field access, the `if (data?.k)` pattern of the source. -/
def fieldTruthy (j : Json) (k : String) : Option Json :=
  match getField j k with
  | some v => if jsTruthy v then some v else none
  | none => none

/-- JS `s.substring(0, n)` (the source uses `text.substring(0, 200)`). -/
def jsSubstring (s : String) (n : Nat) : String :=
  String.mk (s.data.take n)

/-- Endpoint targeted by a request; URL construction (percent-encoding of the
key into the path) is injective in the key and abstracted away here. -/
inductive Endpoint where
  | note : String → Endpoint
  | noteImage : String → Endpoint
  | external : String → Endpoint
deriving DecidableEq

/-- Request body as built by the source operations. -/
inductive ReqBody where
  | noBody : ReqBody
  | jsonMessage : String → ReqBody
  | multipartImage : String → String → List Nat → ReqBody
deriving DecidableEq

structure Request where
  method : String
  endpoint : Endpoint
  body : ReqBody
deriving DecidableEq

/-- Response as the code observes it: flag/status/status text, the body text
read once (empty when the read failed), the oracle result of `JSON.parse` on
that text (`none` when parsing throws), and for binary endpoints the
content-type header and raw bytes. -/
structure HttpResp where
  ok : Bool
  status : Nat
  statusText : String
  text : String
  parsed : Option Json
  contentType : Option String
  bytes : List Nat

/-- Deterministic network stub: response to the n-th request issued by an
operation. -/
structure Net where
  respond : Nat → Request → HttpResp

def statusPrefix (r : HttpResp) : String :=
  toString r.status ++ " " ++ r.statusText

/-- Failure message built by `handleJson` for a non-ok response
(src/lib/secretnotes.ts lines 27-39). -/
def errorMessageOf (r : HttpResp) : String :=
  if r.text = "" then statusPrefix r
  else
    match r.parsed with
    | some j =>
      match fieldTruthy j "error" with
      | some v => statusPrefix r ++ ": " ++ jsDisplay v
      | none =>
        match fieldTruthy j "message" with
        | some w => statusPrefix r ++ ": " ++ jsDisplay w
        | none => statusPrefix r
    | none => statusPrefix r ++ " - " ++ jsSubstring r.text 200

/-- Embedding of `handleJson` (src/lib/secretnotes.ts lines 20-53): read the
body text once; non-ok throws the built message; ok with empty body yields an
empty object; ok with unparseable body yields an empty object; otherwise the
parsed value. -/
def handleJson (r : HttpResp) : Except String Json :=
  if r.ok = false then .error (errorMessageOf r)
  else if r.text = "" then .ok (.jobj [])
  else
    match r.parsed with
    | some j => .ok j
    | none => .ok (.jobj [])

/-- Embedding of `getNote`: GET on the note endpoint of the normalized key,
result piped through `handleJson` (errors rethrown unchanged). -/
def getNote (net : Net) (phrase : String) : Except String Json :=
  handleJson (net.respond 0 ⟨"GET", .note (normalizePhrase phrase), .noBody⟩)

/-- Embedding of `createNote`: POST `{message}`. -/
def createNote (net : Net) (phrase message : String) : Except String Json :=
  handleJson (net.respond 0
    ⟨"POST", .note (normalizePhrase phrase), .jsonMessage message⟩)

/-- Embedding of `saveNote` (PUT upsert). -/
def saveNote (net : Net) (phrase message : String) : Except String Json :=
  handleJson (net.respond 0
    ⟨"PUT", .note (normalizePhrase phrase), .jsonMessage message⟩)

/-- Embedding of `updateNote` (PATCH). -/
def updateNote (net : Net) (phrase message : String) : Except String Json :=
  handleJson (net.respond 0
    ⟨"PATCH", .note (normalizePhrase phrase), .jsonMessage message⟩)

/-- Embedding of `deleteImage` (DELETE on the image endpoint). -/
def deleteImage (net : Net) (phrase : String) : Except String Json :=
  handleJson (net.respond 0
    ⟨"DELETE", .noteImage (normalizePhrase phrase), .noBody⟩)

/-- Chunks of at most 0x8000 bytes, exactly the loop
`for (i = 0; i < bytes.length; i += chunk)` of `arrayBufferToBase64`. -/
def chunkPieces (bytes : List Nat) : List (List Nat) :=
  if bytes = [] then []
  else bytes.take 32768 :: chunkPieces (bytes.drop 32768)
termination_by bytes.length
decreasing_by
  rename_i h
  have hlen : 0 < bytes.length := List.length_pos.mpr h
  simp [List.length_drop]
  omega

/-- Standard base64 alphabet. -/
def b64Alphabet : List Char :=
  "ABCDEFGHIJKLMNOPQRSTUVWXYZabcdefghijklmnopqrstuvwxyz0123456789+/".data

def b64c (n : Nat) : Char :=
  b64Alphabet.getD n 'A'

/-- Base64 of a byte/char-code sequence: the `btoa` primitive (standard
RFC 4648 alphabet with `=` padding). -/
def btoa : List Nat → String
  | [] => ""
  | [a] =>
    String.mk [b64c (a / 4), b64c (a % 4 * 16), '=', '=']
  | [a, b] =>
    String.mk [b64c (a / 4), b64c (a % 4 * 16 + b / 16), b64c (b % 16 * 4), '=']
  | a :: b :: c :: rest =>
    String.mk [b64c (a / 4), b64c (a % 4 * 16 + b / 16),
      b64c (b % 16 * 4 + c / 64), b64c (c % 64)] ++ btoa rest

/-- Embedding of `arrayBufferToBase64` (src/lib/secretnotes.ts lines
196-205): build the binary string chunk by chunk (each chunk converted by
`String.fromCharCode`, whose output code units are the byte values
themselves), then `btoa` the concatenation. -/
def arrayBufferToBase64 (buffer : List Nat) : String :=
  btoa (chunkPieces buffer).flatten

/-- Reference single-pass encoder: base64 of the whole buffer at once. -/
def base64Encode (bytes : List Nat) : String :=
  btoa bytes

/-- Embedding of `getImage`: GET binary; non-ok throws bare
`status statusText`; ok yields the data URI built from the base64 payload and
the content type (defaulted to `application/octet-stream`). -/
def getImage (net : Net) (phrase : String) : Except String (String × String) :=
  let r := net.respond 0 ⟨"GET", .noteImage (normalizePhrase phrase), .noBody⟩
  if r.ok = false then .error (statusPrefix r)
  else
    let ct := r.contentType.getD "application/octet-stream"
    .ok ("data:" ++ ct ++ ";base64," ++ arrayBufferToBase64 r.bytes, ct)

/-- Filename hint of `uploadImageFromUrl`:
`imageUrl.split('?')[0].split('#')[0].split('/').pop() || 'image'`. -/
def nameGuessOf (imageUrl : String) : String :=
  let s1 := (imageUrl.splitOn "?").headD ""
  let s2 := (s1.splitOn "#").headD ""
  let last := (s2.splitOn "/").getLastD ""
  if last = "" then "image" else last

/-- Embedding of `uploadImageFromUrl`: fetch the source URL directly (call 0);
a non-ok source fetch throws the distinct source-fetch error; otherwise POST
the bytes as multipart field `image` with the derived filename (call 1) and
pipe through `handleJson`. -/
def uploadImageFromUrl (net : Net) (phrase imageUrl : String) :
    Except String Json :=
  let key := normalizePhrase phrase
  let imgRes := net.respond 0 ⟨"GET", .external imageUrl, .noBody⟩
  if imgRes.ok = false then
    .error ("Failed to fetch image: " ++ toString imgRes.status)
  else
    let ct := imgRes.contentType.getD "application/octet-stream"
    handleJson (net.respond 1
      ⟨"POST", .noteImage key, .multipartImage (nameGuessOf imageUrl) ct imgRes.bytes⟩)

/-- Note record as defined in src/lib/secretnotes.ts lines 7-13. -/
structure Note where
  id : String
  message : String
  hasImage : Bool
  created : String
  updated : String
deriving DecidableEq

/-- JS value thrown on a failure.  The thrown value carries a message and a
truthiness flag, because `getOrCreateNote` selects among caught errors with
`postErr || patchErr || e`, which branches on truthiness (the errors thrown
by this code are always truthy `Error` objects, but a stubbed transport may
reject with anything). -/
structure JsErr where
  message : String
  truthy : Bool
deriving DecidableEq

/-- JS `a || b` on thrown values. -/
def jsOrErr (a b : JsErr) : JsErr :=
  if a.truthy then a else b

/-- Resolver-level transport stub abstracting `getNote` / `saveNote` /
`createNote` as the fallible operations the resolver composes.  `read` is
indexed by how many reads were issued before it, so a post-write read may
behave differently from the initial one. Successful writes resolve to the
parsed response value, which is a `Note` object in every non-degenerate run
but can be a falsy JS value (`none` here) when the server returns a body such
as `null` — the code guards on this with `if (createdOrUpdated)`. -/
structure NoteApi where
  read : String → Nat → Except JsErr Note
  upsert : String → String → Except JsErr (Option Note)
  create : String → String → Except JsErr (Option Note)

/-- Call issued by the resolver, with the key (and write payload) passed. -/
inductive RCall where
  | readCall : String → RCall
  | upsertCall : String → String → RCall
  | createCall : String → String → RCall
deriving DecidableEq

/-- DEFAULT_INIT_MESSAGE from src/lib/secretnotes.ts line 18. -/
def DEFAULT_INIT_MESSAGE : String := "Welcome to your new secure note!"

/-- Embedding of `getOrCreateNote` (src/lib/secretnotes.ts lines 71-97),
returning the result together with the trace of transport calls in order.
The source normalizes the phrase into `key` and every delegate operation
(`getNote`, `saveNote`, `createNote`) normalizes its argument again, hence
the nested `normalizePhrase`.  Control flow: try the read; on any failure try
the PUT upsert with the default message; if that throws try the POST create;
if that throws too, throw `postErr || patchErr || e`.  A successful write is
returned directly; only a falsy write value falls through to the defensive
final read. -/
def getOrCreateNote (api : NoteApi) (phrase : String) :
    Except JsErr Note × List RCall :=
  let key := normalizePhrase phrase
  match api.read (normalizePhrase key) 0 with
  | .ok n => (.ok n, [.readCall (normalizePhrase key)])
  | .error e =>
    let t0 := [RCall.readCall (normalizePhrase key)]
    match api.upsert (normalizePhrase key) DEFAULT_INIT_MESSAGE with
    | .ok u =>
      let t1 := t0 ++ [RCall.upsertCall (normalizePhrase key) DEFAULT_INIT_MESSAGE]
      match u with
      | some n => (.ok n, t1)
      | none =>
        match api.read (normalizePhrase key) 1 with
        | .ok n => (.ok n, t1 ++ [.readCall (normalizePhrase key)])
        | .error e2 => (.error e2, t1 ++ [.readCall (normalizePhrase key)])
    | .error patchErr =>
      let t1 := t0 ++ [RCall.upsertCall (normalizePhrase key) DEFAULT_INIT_MESSAGE]
      match api.create (normalizePhrase key) DEFAULT_INIT_MESSAGE with
      | .ok u =>
        let t2 := t1 ++ [RCall.createCall (normalizePhrase key) DEFAULT_INIT_MESSAGE]
        match u with
        | some n => (.ok n, t2)
        | none =>
          match api.read (normalizePhrase key) 1 with
          | .ok n => (.ok n, t2 ++ [.readCall (normalizePhrase key)])
          | .error e2 => (.error e2, t2 ++ [.readCall (normalizePhrase key)])
      | .error postErr =>
        (.error (jsOrErr postErr (jsOrErr patchErr e)),
         t1 ++ [RCall.createCall (normalizePhrase key) DEFAULT_INIT_MESSAGE])

/-- Pending debounce timeout: absolute fire time plus the `phrase` and
`message` values captured by the `setTimeout` closure. -/
structure TimerInfo where
  fire : Nat
  phrase : String
  payload : String
deriving DecidableEq

/-- State of the index screen relevant to autosave: the passphrase, the
confirmed note (`setNote`), the editable message (`setMessage`), the pending
debounce timeout, the queue of outstanding `saveNote` promises, the ordered
log of issued writes, and a flag recording whether a write was ever started
while another was still outstanding. -/
structure UiState where
  phrase : String
  note : Option Note
  message : String
  timer : Option TimerInfo
  inFlight : List (String × String)
  writes : List (String × String)
  overlap : Bool
deriving DecidableEq

/-- One run of the autosave effect (src screen, autosave `useEffect` with
deps `[message, note, valid]`).  Whenever a dep changes, React first runs the
cleanup of the previous effect invocation, which clears the pending timeout;
an invocation that early-returns registers no cleanup, but it also left no
pending timeout behind (it cleared nothing and scheduled nothing), so by the
time the next invocation runs, clearing the timer unconditionally is exactly
the source behaviour (the effect body additionally calls
`clearTimeout(saveTimeout.current)` itself before scheduling).  Guards in
source order: no note loaded, phrase shorter than 3 characters, message equal
to the confirmed note message; otherwise schedule a fresh 2000 ms timeout
whose closure captures the current phrase and message. -/
def runEffect (now : Nat) (s : UiState) : UiState :=
  let s := { s with timer := none }
  match s.note with
  | none => s
  | some n =>
    if s.phrase.length < 3 then s
    else if s.message = n.message then s
    else { s with timer := some ⟨now + 2000, s.phrase, s.message⟩ }

/-- External events driving the screen: a user edit of the message field, the
pending timeout firing, and an outstanding `saveNote` promise resolving
(successfully with the server note, or rejecting). -/
inductive UiEvent where
  | edit : Nat → String → UiEvent
  | fire : Nat → UiEvent
  | saveOk : Nat → Note → UiEvent
  | saveErr : Nat → UiEvent
deriving DecidableEq

def eventTime : UiEvent → Nat
  | .edit t _ => t
  | .fire t => t
  | .saveOk t _ => t
  | .saveErr t => t

/-- Step semantics.  `edit`: `setMessage` with an unchanged value re-renders
nothing (state bail-out); a changed value re-runs the effect.  `fire`: the
timeout callback issues `saveNote(phrase, message)` (the captured values) —
the write is logged, becomes outstanding, and `overlap` records whether
another write was still in flight.  `saveOk`: the oldest outstanding write
resolves; `setNote(updated)` changes the `note` dep, re-running the effect.
`saveErr`: the write resolves with a failure; only an alert is shown and no
dep changes. -/
def uiStep (s : UiState) : UiEvent → UiState
  | .edit t v =>
    if v = s.message then s
    else runEffect t { s with message := v }
  | .fire _ =>
    match s.timer with
    | some τ =>
      { s with
        timer := none
        writes := s.writes ++ [(τ.phrase, τ.payload)]
        overlap := s.overlap || !s.inFlight.isEmpty
        inFlight := s.inFlight ++ [(τ.phrase, τ.payload)] }
    | none => s
  | .saveOk tr n =>
    match s.inFlight with
    | [] => s
    | _ :: rest => runEffect tr { s with inFlight := rest, note := some n }
  | .saveErr _ =>
    match s.inFlight with
    | [] => s
    | _ :: rest => { s with inFlight := rest }

def uiRun (s : UiState) (evs : List UiEvent) : UiState :=
  evs.foldl uiStep s

/-- Admissibility of one event in a state: the timeout, when pending, fires
exactly at its due time, and every other event happens strictly before the
pending due time; save resolutions require an outstanding write. -/
def validEvent (s : UiState) : UiEvent → Bool
  | .edit t _ =>
    match s.timer with
    | none => true
    | some τ => t < τ.fire
  | .fire t =>
    match s.timer with
    | none => false
    | some τ => τ.fire = t
  | .saveOk t _ =>
    (match s.timer with
     | none => true
     | some τ => t < τ.fire) && !s.inFlight.isEmpty
  | .saveErr t =>
    (match s.timer with
     | none => true
     | some τ => t < τ.fire) && !s.inFlight.isEmpty

/-- A time-monotone, admissible event schedule starting at `now`. -/
def validTrace (now : Nat) (s : UiState) : List UiEvent → Bool
  | [] => true
  | e :: es =>
    (now ≤ eventTime e) && validEvent s e &&
      validTrace (eventTime e) (uiStep s e) es

/-! ### Claim theorems -/

/-- C1: for every key, `getOrCreateNote` first attempts the read and returns
its Note unchanged on success; on any read failure it attempts the upsert,
then the create, and when both writes fail the propagated error is
`postErr || patchErr || e`: the create failure if it exists (is truthy),
otherwise the upsert failure, otherwise the original read failure. -/
theorem getOrCreateNote_read_first_and_error_precedence
    (api : NoteApi) (phrase : String) :
    (∀ n, api.read (normalizePhrase phrase) 0 = .ok n →
      getOrCreateNote api phrase = (.ok n, [.readCall (normalizePhrase phrase)])) ∧
    (∀ e pe ce,
      api.read (normalizePhrase phrase) 0 = .error e →
      api.upsert (normalizePhrase phrase) DEFAULT_INIT_MESSAGE = .error pe →
      api.create (normalizePhrase phrase) DEFAULT_INIT_MESSAGE = .error ce →
      getOrCreateNote api phrase =
        (.error (if ce.truthy then ce else if pe.truthy then pe else e),
         [.readCall (normalizePhrase phrase),
          .upsertCall (normalizePhrase phrase) DEFAULT_INIT_MESSAGE,
          .createCall (normalizePhrase phrase) DEFAULT_INIT_MESSAGE])) := by
  constructor
  · intro n hr
    simp [getOrCreateNote, normalizePhrase_idem, hr]
  · intro e pe ce hr hu hc
    simp [getOrCreateNote, normalizePhrase_idem, hr, hu, hc, jsOrErr]

/-- Witness for C1: a transport failing all three calls, with a falsy upsert
rejection, propagates the create failure. -/
theorem getOrCreateNote_read_first_and_error_precedence_witness :
    getOrCreateNote
      ⟨fun _ _ => .error ⟨"read down", true⟩,
       fun _ _ => .error ⟨"upsert down", false⟩,
       fun _ _ => .error ⟨"create down", true⟩⟩ "k1" =
      (.error ⟨"create down", true⟩,
       [.readCall (normalizePhrase "k1"),
        .upsertCall (normalizePhrase "k1") DEFAULT_INIT_MESSAGE,
        .createCall (normalizePhrase "k1") DEFAULT_INIT_MESSAGE]) := by
  have h := (getOrCreateNote_read_first_and_error_precedence
    ⟨fun _ _ => .error ⟨"read down", true⟩,
     fun _ _ => .error ⟨"upsert down", false⟩,
     fun _ _ => .error ⟨"create down", true⟩⟩ "k1").2
    ⟨"read down", true⟩ ⟨"upsert down", false⟩ ⟨"create down", true⟩ rfl rfl rfl
  simpa using h

/-- C2: whenever a fallback write succeeds with a Note, `getOrCreateNote`
returns that Note directly and the call trace contains exactly one read,
issued before the write — no confirmatory read afterwards.  The conclusion
holds for every behaviour of `api.read` at call index 1 (it is never
consulted), so in particular when a read immediately after the write would
fail, the resolved Note cannot carry that error. -/
theorem getOrCreateNote_trusts_successful_write
    (api : NoteApi) (phrase : String) (e : JsErr) (n : Note)
    (hr : api.read (normalizePhrase phrase) 0 = .error e) :
    (api.upsert (normalizePhrase phrase) DEFAULT_INIT_MESSAGE = .ok (some n) →
      getOrCreateNote api phrase =
        (.ok n, [.readCall (normalizePhrase phrase),
                 .upsertCall (normalizePhrase phrase) DEFAULT_INIT_MESSAGE])) ∧
    (∀ pe, api.upsert (normalizePhrase phrase) DEFAULT_INIT_MESSAGE = .error pe →
      api.create (normalizePhrase phrase) DEFAULT_INIT_MESSAGE = .ok (some n) →
      getOrCreateNote api phrase =
        (.ok n, [.readCall (normalizePhrase phrase),
                 .upsertCall (normalizePhrase phrase) DEFAULT_INIT_MESSAGE,
                 .createCall (normalizePhrase phrase) DEFAULT_INIT_MESSAGE])) := by
  constructor
  · intro hu
    simp [getOrCreateNote, normalizePhrase_idem, hr, hu]
  · intro pe hu hc
    simp [getOrCreateNote, normalizePhrase_idem, hr, hu, hc]

/-- Witness for C2: a stub whose post-write read (call index 1) would fail;
the resolved Note is the write response and the trace shows a single read. -/
theorem getOrCreateNote_trusts_successful_write_witness :
    getOrCreateNote
      ⟨fun _ i => .error (if i = 0 then ⟨"missing", true⟩ else ⟨"post-write read failed", true⟩),
       fun _ _ => .ok (some ⟨"id1", DEFAULT_INIT_MESSAGE, false, "c", "u"⟩),
       fun _ _ => .error ⟨"unused", true⟩⟩ "k2" =
      (.ok ⟨"id1", DEFAULT_INIT_MESSAGE, false, "c", "u"⟩,
       [.readCall (normalizePhrase "k2"),
        .upsertCall (normalizePhrase "k2") DEFAULT_INIT_MESSAGE]) := by
  exact (getOrCreateNote_trusts_successful_write
    ⟨fun _ i => .error (if i = 0 then ⟨"missing", true⟩ else ⟨"post-write read failed", true⟩),
     fun _ _ => .ok (some ⟨"id1", DEFAULT_INIT_MESSAGE, false, "c", "u"⟩),
     fun _ _ => .error ⟨"unused", true⟩⟩ "k2"
    ⟨"missing", true⟩ ⟨"id1", DEFAULT_INIT_MESSAGE, false, "c", "u"⟩ rfl).1 rfl

/-- C3: editing the message to `"x"`, `"xy"`, `"xyz"` with gaps `g1, g2 <
2000` ms produces an admissible schedule in which exactly one write is
issued, with payload `"xyz"`: each edit cancels the running timer and starts
a fresh 2000 ms timer carrying the latest value.  The trailing `saveOk` is
the echoing server response resolving the single write after an arbitrary
latency `d`. -/
theorem autosave_debounce_coalesces_to_single_write (g1 g2 d : Nat)
    (h1 : g1 < 2000) (h2 : g2 < 2000) :
    validTrace 0
      ⟨"abc", some ⟨"id0", "initial", false, "t0", "t0"⟩, "initial", none, [], [], false⟩
      [.edit 0 "x", .edit g1 "xy", .edit (g1 + g2) "xyz",
       .fire (g1 + g2 + 2000),
       .saveOk (g1 + g2 + 2000 + d) ⟨"id0", "xyz", false, "t0", "t1"⟩] = true ∧
    (uiRun
      ⟨"abc", some ⟨"id0", "initial", false, "t0", "t0"⟩, "initial", none, [], [], false⟩
      [.edit 0 "x", .edit g1 "xy", .edit (g1 + g2) "xyz",
       .fire (g1 + g2 + 2000),
       .saveOk (g1 + g2 + 2000 + d) ⟨"id0", "xyz", false, "t0", "t1"⟩]).writes
      = [("abc", "xyz")] := by
  constructor
  · simp +decide [validTrace, validEvent, eventTime, uiStep, runEffect]
    omega
  · simp +decide [uiRun, uiStep, runEffect]

/-- Witness for C3 with concrete gaps of 100 ms and latency 50 ms. -/
theorem autosave_debounce_coalesces_to_single_write_witness :
    validTrace 0
      ⟨"abc", some ⟨"id0", "initial", false, "t0", "t0"⟩, "initial", none, [], [], false⟩
      [.edit 0 "x", .edit 100 "xy", .edit (100 + 100) "xyz",
       .fire (100 + 100 + 2000),
       .saveOk (100 + 100 + 2000 + 50) ⟨"id0", "xyz", false, "t0", "t1"⟩] = true ∧
    (uiRun
      ⟨"abc", some ⟨"id0", "initial", false, "t0", "t0"⟩, "initial", none, [], [], false⟩
      [.edit 0 "x", .edit 100 "xy", .edit (100 + 100) "xyz",
       .fire (100 + 100 + 2000),
       .saveOk (100 + 100 + 2000 + 50) ⟨"id0", "xyz", false, "t0", "t1"⟩]).writes
      = [("abc", "xyz")] := by
  exact autosave_debounce_coalesces_to_single_write 100 100 50 (by decide) (by decide)

/-- C4 counterexample: an admissible schedule in which a timer-triggered
write starts while a previous autosave write is still outstanding.  The
first save (issued at 2000) is slow (resolves at 5000); an edit at 2100
schedules a new timer which fires at 4100, starting a second write while the
first is still in flight — `overlap` becomes true, refuting the claim that a
second timer-triggered write never starts while one is outstanding. -/
theorem autosave_overlap_possible_counterexample :
    validTrace 0
      ⟨"abc", some ⟨"id0", "a", false, "t0", "t0"⟩, "a", none, [], [], false⟩
      [.edit 0 "b", .fire 2000, .edit 2100 "c", .fire 4100,
       .saveOk 5000 ⟨"id0", "b", false, "t0", "t1"⟩,
       .saveOk 6000 ⟨"id0", "c", false, "t0", "t2"⟩] = true ∧
    (uiRun
      ⟨"abc", some ⟨"id0", "a", false, "t0", "t0"⟩, "a", none, [], [], false⟩
      [.edit 0 "b", .fire 2000, .edit 2100 "c", .fire 4100,
       .saveOk 5000 ⟨"id0", "b", false, "t0", "t1"⟩,
       .saveOk 6000 ⟨"id0", "c", false, "t0", "t2"⟩]).overlap = true := by
  decide

/-- C4 (amended): a new edit `v` arriving while a write is in flight is
still registered and scheduled on a fresh 2000 ms timer and its value is
eventually written (not dropped) — but nothing prevents that write from
starting while the previous one is still outstanding. -/
theorem autosave_edit_during_inflight_write_not_dropped (v : String)
    (hv1 : v ≠ "a") (hv2 : v ≠ "b") :
    validTrace 0
      ⟨"abc", some ⟨"id0", "a", false, "t0", "t0"⟩, "a", none, [], [], false⟩
      [.edit 0 "b", .fire 2000, .edit 2100 v, .fire 4100,
       .saveOk 5000 ⟨"id0", "b", false, "t0", "t1"⟩,
       .saveOk 6000 ⟨"id0", v, false, "t0", "t2"⟩] = true ∧
    (uiRun
      ⟨"abc", some ⟨"id0", "a", false, "t0", "t0"⟩, "a", none, [], [], false⟩
      [.edit 0 "b", .fire 2000, .edit 2100 v, .fire 4100,
       .saveOk 5000 ⟨"id0", "b", false, "t0", "t1"⟩,
       .saveOk 6000 ⟨"id0", v, false, "t0", "t2"⟩]).writes
      = [("abc", "b"), ("abc", v)] := by
  constructor
  · simp +decide [validTrace, validEvent, eventTime, uiStep, runEffect, hv1, hv2]
  · simp +decide [uiRun, uiStep, runEffect, hv1, hv2]

/-- Witness for the amended C4, with the in-flight edit value `"c"`. -/
theorem autosave_edit_during_inflight_write_not_dropped_witness :
    validTrace 0
      ⟨"abc", some ⟨"id0", "a", false, "t0", "t0"⟩, "a", none, [], [], false⟩
      [.edit 0 "b", .fire 2000, .edit 2100 "c", .fire 4100,
       .saveOk 5000 ⟨"id0", "b", false, "t0", "t1"⟩,
       .saveOk 6000 ⟨"id0", "c", false, "t0", "t2"⟩] = true ∧
    (uiRun
      ⟨"abc", some ⟨"id0", "a", false, "t0", "t0"⟩, "a", none, [], [], false⟩
      [.edit 0 "b", .fire 2000, .edit 2100 "c", .fire 4100,
       .saveOk 5000 ⟨"id0", "b", false, "t0", "t1"⟩,
       .saveOk 6000 ⟨"id0", "c", false, "t0", "t2"⟩]).writes
      = [("abc", "b"), ("abc", "c")] := by
  exact autosave_edit_during_inflight_write_not_dropped "c" (by decide) (by decide)

/-- C5: an edit whose value equals the confirmed Note's message issues no
write and starts no timer — the state either keeps no pending timer at all,
or (when the field value did not change) is left entirely untouched. -/
theorem autosave_noop_on_confirmed_message (s : UiState) (n : Note) (t : Nat)
    (hn : s.note = some n) :
    (uiStep s (.edit t n.message)).writes = s.writes ∧
    ((uiStep s (.edit t n.message)).timer = none ∨ uiStep s (.edit t n.message) = s) := by
  by_cases hm : n.message = s.message
  · simp [uiStep, hm]
  · constructor
    · simp [uiStep, hm, runEffect, hn]
    · left
      simp [uiStep, hm, runEffect, hn]

/-- Witness for C5: editing back to the confirmed value cancels the pending
timer and issues no write. -/
theorem autosave_noop_on_confirmed_message_witness :
    (uiStep
      ⟨"abc", some ⟨"id0", "hello", false, "c", "u"⟩, "draft",
       some ⟨2000, "abc", "draft"⟩, [], [], false⟩ (.edit 500 "hello")).writes = [] ∧
    ((uiStep
      ⟨"abc", some ⟨"id0", "hello", false, "c", "u"⟩, "draft",
       some ⟨2000, "abc", "draft"⟩, [], [], false⟩ (.edit 500 "hello")).timer = none ∨
     uiStep
      ⟨"abc", some ⟨"id0", "hello", false, "c", "u"⟩, "draft",
       some ⟨2000, "abc", "draft"⟩, [], [], false⟩ (.edit 500 "hello") =
      ⟨"abc", some ⟨"id0", "hello", false, "c", "u"⟩, "draft",
       some ⟨2000, "abc", "draft"⟩, [], [], false⟩) := by
  exact autosave_noop_on_confirmed_message
    ⟨"abc", some ⟨"id0", "hello", false, "c", "u"⟩, "draft",
     some ⟨2000, "abc", "draft"⟩, [], [], false⟩ ⟨"id0", "hello", false, "c", "u"⟩ 500 rfl

/-- C6: every non-success response produces a failure whose message starts
with the numeric status and status text; when the body parses as JSON with a
truthy `error` (or, failing that, `message`) field, the failure message
contains that field's display value; when the non-empty body does not parse,
the message is the prefix plus a snippet of at most the first 200 characters
of the raw body.  (A present-but-falsy string field can only be the empty
string, which every message contains trivially.) -/
theorem handleJson_failure_message_reporting (r : HttpResp) (h : r.ok = false) :
    handleJson r = .error (errorMessageOf r) ∧
    (∃ rest, errorMessageOf r = statusPrefix r ++ rest) ∧
    (∀ j v, r.text ≠ "" → r.parsed = some j → fieldTruthy j "error" = some v →
      ∃ a b, errorMessageOf r = a ++ jsDisplay v ++ b) ∧
    (∀ j v, r.text ≠ "" → r.parsed = some j → fieldTruthy j "error" = none →
      fieldTruthy j "message" = some v →
      ∃ a b, errorMessageOf r = a ++ jsDisplay v ++ b) ∧
    (r.text ≠ "" → r.parsed = none →
      errorMessageOf r = statusPrefix r ++ " - " ++ jsSubstring r.text 200 ∧
      (jsSubstring r.text 200).length ≤ 200) := by
  refine ⟨by simp [handleJson, h], ?_, ?_, ?_, ?_⟩
  · unfold errorMessageOf
    by_cases ht : r.text = ""
    · exact ⟨"", by simp [ht]⟩
    · cases hp : r.parsed with
      | none => exact ⟨" - " ++ jsSubstring r.text 200, by simp [ht, hp, String.append_assoc]⟩
      | some j =>
        cases he : fieldTruthy j "error" with
        | some v => exact ⟨": " ++ jsDisplay v, by simp [ht, hp, he, String.append_assoc]⟩
        | none =>
          cases hmf : fieldTruthy j "message" with
          | some w => exact ⟨": " ++ jsDisplay w, by simp [ht, hp, he, hmf, String.append_assoc]⟩
          | none => exact ⟨"", by simp [ht, hp, he, hmf]⟩
  · intro j v ht hp he
    refine ⟨statusPrefix r ++ ": ", "", ?_⟩
    simp [errorMessageOf, ht, hp, he, String.append_assoc]
  · intro j v ht hp he hmf
    refine ⟨statusPrefix r ++ ": ", "", ?_⟩
    simp [errorMessageOf, ht, hp, he, hmf, String.append_assoc]
  · intro ht hp
    refine ⟨by simp [errorMessageOf, ht, hp], ?_⟩
    show (r.text.data.take 200).length ≤ 200
    simp [List.length_take]

/-- Witness for C6: a 404 with body `{"error":"note not found"}` produces a
failure message containing `note not found`. -/
theorem handleJson_failure_message_reporting_witness :
    handleJson ⟨false, 404, "Not Found", "\x7b\"error\":\"note not found\"\x7d",
        some (.jobj [("error", .jstr "note not found")]), none, []⟩ =
      .error (errorMessageOf ⟨false, 404, "Not Found", "\x7b\"error\":\"note not found\"\x7d",
        some (.jobj [("error", .jstr "note not found")]), none, []⟩) ∧
    (∃ a b, errorMessageOf ⟨false, 404, "Not Found", "\x7b\"error\":\"note not found\"\x7d",
        some (.jobj [("error", .jstr "note not found")]), none, []⟩
      = a ++ "note not found" ++ b) := by
  refine ⟨(handleJson_failure_message_reporting _ rfl).1, ?_⟩
  exact (handleJson_failure_message_reporting _ rfl).2.2.1
    (.jobj [("error", .jstr "note not found")]) (.jstr "note not found")
    (by decide) rfl rfl

/-- C7: a success-status response with an empty body, and a success-status
response with a non-empty body that does not parse as JSON, both resolve to
the empty-object result instead of failing. -/
theorem handleJson_success_empty_or_unparseable_body (r : HttpResp) (h : r.ok = true) :
    (r.text = "" → handleJson r = .ok (.jobj [])) ∧
    (r.text ≠ "" → r.parsed = none → handleJson r = .ok (.jobj [])) := by
  constructor
  · intro ht
    simp [handleJson, h, ht]
  · intro ht hp
    simp [handleJson, h, ht, hp]

/-- Witness for C7: a 204-style empty success resolves to the empty object. -/
theorem handleJson_success_empty_or_unparseable_body_witness :
    handleJson ⟨true, 204, "No Content", "", none, none, []⟩ = .ok (.jobj []) := by
  exact (handleJson_success_empty_or_unparseable_body
    ⟨true, 204, "No Content", "", none, none, []⟩ rfl).1 rfl

/-- C8: when the read fails and at least one fallback write succeeds with a
Note (against a transport that echoes the written message, as the note API
does), `getOrCreateNote` succeeds with a Note whose message is the fixed
default placeholder; the placeholder is non-empty, and it is the message
payload of every write call in the trace. -/
theorem getOrCreateNote_initializes_with_default_message
    (api : NoteApi) (phrase : String) (e : JsErr)
    (hechoU : ∀ k m nt, api.upsert k m = .ok (some nt) → nt.message = m)
    (hechoC : ∀ k m nt, api.create k m = .ok (some nt) → nt.message = m)
    (hr : api.read (normalizePhrase phrase) 0 = .error e)
    (hw : (∃ nt, api.upsert (normalizePhrase phrase) DEFAULT_INIT_MESSAGE = .ok (some nt)) ∨
          ((∃ pe, api.upsert (normalizePhrase phrase) DEFAULT_INIT_MESSAGE = .error pe) ∧
           (∃ nt, api.create (normalizePhrase phrase) DEFAULT_INIT_MESSAGE = .ok (some nt)))) :
    (∃ nt, (getOrCreateNote api phrase).1 = .ok nt ∧ nt.message = DEFAULT_INIT_MESSAGE) ∧
    DEFAULT_INIT_MESSAGE ≠ "" ∧
    (∀ k m, RCall.upsertCall k m ∈ (getOrCreateNote api phrase).2 → m = DEFAULT_INIT_MESSAGE) ∧
    (∀ k m, RCall.createCall k m ∈ (getOrCreateNote api phrase).2 → m = DEFAULT_INIT_MESSAGE) := by
  rcases hw with ⟨nt, hu⟩ | ⟨⟨pe, hu⟩, ⟨nt, hc⟩⟩
  · refine ⟨⟨nt, ?_, hechoU _ _ _ hu⟩, by decide, ?_, ?_⟩
    · simp [getOrCreateNote, normalizePhrase_idem, hr, hu]
    · intro k m hm
      simp [getOrCreateNote, normalizePhrase_idem, hr, hu] at hm
      first
      | exact hm
      | exact hm.2
    · intro k m hm
      simp [getOrCreateNote, normalizePhrase_idem, hr, hu] at hm
  · refine ⟨⟨nt, ?_, hechoC _ _ _ hc⟩, by decide, ?_, ?_⟩
    · simp [getOrCreateNote, normalizePhrase_idem, hr, hu, hc]
    · intro k m hm
      simp [getOrCreateNote, normalizePhrase_idem, hr, hu, hc] at hm
      first
      | exact hm
      | exact hm.2
    · intro k m hm
      simp [getOrCreateNote, normalizePhrase_idem, hr, hu, hc] at hm
      first
      | exact hm
      | exact hm.2

/-- Witness for C8: an echoing transport whose read fails initializes the
note with the default placeholder message. -/
theorem getOrCreateNote_initializes_with_default_message_witness :
    ∃ nt, (getOrCreateNote
      ⟨fun _ _ => .error ⟨"missing", true⟩,
       fun _ m => .ok (some ⟨"idX", m, false, "c", "u"⟩),
       fun _ m => .ok (some ⟨"idY", m, false, "c", "u"⟩)⟩ "k3").1 = .ok nt ∧
      nt.message = DEFAULT_INIT_MESSAGE := by
  exact (getOrCreateNote_initializes_with_default_message
    ⟨fun _ _ => .error ⟨"missing", true⟩,
     fun _ m => .ok (some ⟨"idX", m, false, "c", "u"⟩),
     fun _ m => .ok (some ⟨"idY", m, false, "c", "u"⟩)⟩ "k3" ⟨"missing", true⟩
    (fun k m nt h => by cases h; rfl)
    (fun k m nt h => by cases h; rfl)
    rfl
    (.inl ⟨⟨"idX", DEFAULT_INIT_MESSAGE, false, "c", "u"⟩, rfl⟩)).1

theorem chunkPieces_flatten (l : List Nat) : (chunkPieces l).flatten = l := by
  by_cases h : l = []
  · rw [chunkPieces]
    simp [h]
  · rw [chunkPieces, if_neg h, List.flatten_cons,
      chunkPieces_flatten (l.drop 32768), List.take_append_drop]
termination_by l.length
decreasing_by
  have hlen : 0 < l.length := List.length_pos.mpr h
  simp [List.length_drop]
  omega

theorem chunkPieces_bounded (l : List Nat) :
    ∀ c ∈ chunkPieces l, c.length ≤ 32768 := by
  intro c hc
  by_cases h : l = []
  · rw [chunkPieces] at hc
    simp [h] at hc
  · rw [chunkPieces, if_neg h] at hc
    rcases List.mem_cons.mp hc with h1 | h2
    · subst h1
      simp [List.length_take]
    · exact chunkPieces_bounded (l.drop 32768) c h2
termination_by l.length
decreasing_by
  have hlen : 0 < l.length := List.length_pos.mpr h
  simp [List.length_drop]
  omega

/-- C9: the chunked base64 encoder equals the single-pass encoding of the
whole buffer, for buffers of any size (including empty and non-chunk-multiple
lengths), and every chunk it processes has at most 32768 bytes. -/
theorem arrayBufferToBase64_chunked_eq_single_pass (buffer : List Nat) :
    arrayBufferToBase64 buffer = base64Encode buffer ∧
    ∀ c ∈ chunkPieces buffer, c.length ≤ 32768 := by
  exact ⟨by rw [arrayBufferToBase64, chunkPieces_flatten]; rfl,
    chunkPieces_bounded buffer⟩

/-- Witness for C9 on the buffer `[77, 97, 110, 77, 97]`. -/
theorem arrayBufferToBase64_chunked_eq_single_pass_witness :
    arrayBufferToBase64 [77, 97, 110, 77, 97] = base64Encode [77, 97, 110, 77, 97] ∧
    [77, 97, 110, 77, 97].length ≤ 32768 := by
  refine ⟨(arrayBufferToBase64_chunked_eq_single_pass [77, 97, 110, 77, 97]).1, ?_⟩
  have hcp : chunkPieces [77, 97, 110, 77, 97] = [[77, 97, 110, 77, 97]] := by
    rw [chunkPieces, if_neg (by decide), List.take_of_length_le (by decide),
      List.drop_eq_nil_of_le (by decide), chunkPieces]
    simp
  have h := (arrayBufferToBase64_chunked_eq_single_pass [77, 97, 110, 77, 97]).2
    [77, 97, 110, 77, 97] (by rw [hcp]; exact List.mem_singleton.mpr rfl)
  exact h

/-- C10: every public operation applies `normalizePhrase` to the passphrase
before building its request, so each behaves identically on `p` and on the
trimmed `p`; and re-normalizing an already-normalized key (as
`getOrCreateNote` does internally through its delegates) changes nothing,
by idempotence of normalization. -/
theorem all_operations_normalize_passphrase
    (net : Net) (api : NoteApi) (phrase m url : String) :
    normalizePhrase (normalizePhrase phrase) = normalizePhrase phrase ∧
    getNote net phrase = getNote net (normalizePhrase phrase) ∧
    getOrCreateNote api phrase = getOrCreateNote api (normalizePhrase phrase) ∧
    createNote net phrase m = createNote net (normalizePhrase phrase) m ∧
    saveNote net phrase m = saveNote net (normalizePhrase phrase) m ∧
    updateNote net phrase m = updateNote net (normalizePhrase phrase) m ∧
    getImage net phrase = getImage net (normalizePhrase phrase) ∧
    deleteImage net phrase = deleteImage net (normalizePhrase phrase) ∧
    uploadImageFromUrl net phrase url = uploadImageFromUrl net (normalizePhrase phrase) url := by
  refine ⟨normalizePhrase_idem phrase, ?_, ?_, ?_, ?_, ?_, ?_, ?_, ?_⟩ <;>
    simp [getNote, getOrCreateNote, createNote, saveNote, updateNote, getImage,
      deleteImage, uploadImageFromUrl, normalizePhrase_idem]

end SecretNotes
